import Mathlib

/-!
Verification of the hansel terminal-supervision engine (`hansel.py`).

A shallow embedding of the parts of `hansel.py` relevant to the
question/menu detector (`is_question`), the per-line processing of
`handle_output` inside `autonomous_mode`, the consultation/injection
pipeline (`respond_to_question`, `call_chatgpt`), and the rolling
output buffer.

Strings are modelled as `List Char`.  Python `str.strip`, `str.lower`
and the `re` character classes are modelled over their ASCII behaviour
(the pattern literals in the source are ASCII except for a few
case-less glyphs, so case-insensitive matching coincides).  Wall-clock
times (`time.time()` values) are modelled as integers.
-/

set_option maxHeartbeats 4000000

abbrev Line := List Char

/-- The `ob`/`cb` brace characters (123 and 125). -/
def obr : Char := Char.ofNat 123

def cbr : Char := Char.ofNat 125

def squote : Char := Char.ofNat 39

/-- Whitespace stripped by Python `str.strip()` (ASCII subset). -/
def isPySpace (c : Char) : Bool :=
  c == ' ' || c == '\t' || c == '\n' || c == '\r' || c == Char.ofNat 11 || c == Char.ofNat 12

/-- Python `str.strip()`: drop leading and trailing whitespace. -/
def py_strip (l : Line) : Line :=
  ((l.dropWhile isPySpace).reverse.dropWhile isPySpace).reverse

/-- Python `str.lower()` (ASCII behaviour). -/
def lowerLine (l : Line) : Line := l.map Char.toLower

/-- Python regex `\w` (ASCII behaviour). -/
def isWordChar (c : Char) : Bool := c.isAlphanum || c == '_'

/-- Case-insensitive character match: lowercased pattern char `p`
against subject char `c` (models `re.IGNORECASE`). -/
def eqIC (p c : Char) : Bool := p == Char.toLower c

/-- Case-insensitive "the subject starts with this literal". -/
def startsWithIC : Line → Line → Bool
  | [], _ => true
  | _ :: _, [] => false
  | p :: ps, c :: cs => eqIC p c && startsWithIC ps cs

/-- Scan the subject for an occurrence of literal `a` (case-insensitive)
whose remainder satisfies `after` — the generic shape of an unanchored
`re.search` for `a` followed by further pattern material. -/
def scanIC (a : Line) (after : Line → Bool) : Line → Bool
  | [] => a.isEmpty && after []
  | c :: rest =>
    (startsWithIC a (c :: rest) && after ((c :: rest).drop a.length)) || scanIC a after rest

/-- `re.search` of a plain literal, case-insensitively. -/
def containsIC (a : Line) (l : Line) : Bool := scanIC a (fun _ => true) l

/-- Case-sensitive substring search (Python `in` on already-lowercased
strings, and case-less pattern literals). -/
def containsStr (pat : Line) : Line → Bool
  | [] => pat.isEmpty
  | c :: rest => pat.isPrefixOf (c :: rest) || containsStr pat rest

/-- `\s+` then a continuation: at least one whitespace char, then the
rest of the pattern on the remaining subject. -/
def spacesThen (p : Line → Bool) (l : Line) : Bool :=
  !(l.takeWhile isPySpace).isEmpty && p (l.dropWhile isPySpace)

/-- After `.*`: literal `b` (case-insensitive) may start here or after
any run of non-newline characters. -/
def afterGapIC (b : Line) : Line → Bool
  | [] => b.isEmpty
  | c :: rest => startsWithIC b (c :: rest) || (c != '\n' && afterGapIC b rest)

/-- `re.search(a.*b)`, case-insensitively. -/
def dotStarIC (a b : Line) (l : Line) : Bool := scanIC a (afterGapIC b) l

/-- After `.*`: single character `b` may appear here or after any run of
non-newline characters. -/
def afterGapChar (b : Char) : Line → Bool
  | [] => false
  | c :: rest => c == b || (c != '\n' && afterGapChar b rest)

/-- `re.search` for single char `a`, then `.*`, then single char `b`
(the shape of the `ob.*cb` and bracket skip patterns). -/
def dotStarChar (a b : Char) : Line → Bool
  | [] => false
  | c :: rest => (c == a && afterGapChar b rest) || dotStarChar a b rest

/-- First character of the subject (regex `^c`). -/
def headIs (c : Char) (s : Line) : Bool := s.head? == some c

/-- Skip pattern `^[\s]*[#/\*]` (comments). -/
def skip_comment (s : Line) : Bool :=
  (s.dropWhile isPySpace).head? == some '#' ||
  (s.dropWhile isPySpace).head? == some '/' ||
  (s.dropWhile isPySpace).head? == some '*'

/-- Skip patterns `^[\s]*import ` / `^[\s]*from ` / `^[\s]*def ` / `^[\s]*class `. -/
def skip_kw (kw : Line) (s : Line) : Bool := startsWithIC kw (s.dropWhile isPySpace)

/-- Skip pattern `esc\s+to`. -/
def skip_esc_to (s : Line) : Bool :=
  scanIC ("esc".data) (spacesThen (startsWithIC ("to".data))) s

/-- Skip pattern `^\d+\.` (numbered list items). -/
def skip_numbered (s : Line) : Bool :=
  match s with
  | c :: _ => c.isDigit && ((s.dropWhile Char.isDigit).head? == some '.')
  | [] => false

/-- Skip pattern `^\[\s*[\]xX✓✔]\s*\]` (checkbox items). -/
def skip_checkbox (s : Line) : Bool :=
  match s with
  | c0 :: t =>
    c0 == '[' &&
    (match t.dropWhile isPySpace with
     | c :: t2 =>
       (c == ']' || c == 'x' || c == 'X' || c == '✓' || c == '✔') &&
       ((t2.dropWhile isPySpace).head? == some ']')
     | [] => false)
  | [] => false

/-- Skip pattern `^\s*Next\s*$` ("Next" button). -/
def skip_next_button (s : Line) : Bool :=
  startsWithIC ("next".data) (s.dropWhile isPySpace) &&
  ((s.dropWhile isPySpace).drop 4).all isPySpace

/-- Skip pattern `\w+\?\s*$` (TypeScript/Prisma optional types such as
`String?`, `Int?`): at the end of the line, after optional trailing
whitespace, a question mark immediately preceded by a word character. -/
def skip_optional_type (s : Line) : Bool :=
  match s.reverse.dropWhile isPySpace with
  | q :: c :: _ => q == '?' && isWordChar c
  | _ => false

/-- Skip pattern `===\s*['"]?\w+['"]?\s*\?` (ternary on a string compare). -/
def skip_ternary_eq (s : Line) : Bool :=
  scanIC ("===".data)
    (fun t0 =>
      let t1 := t0.dropWhile isPySpace
      let t2 := if t1.head? == some squote || t1.head? == some '"' then t1.tail else t1
      match t2.head? with
      | some c =>
        isWordChar c &&
        (let t3 := t2.dropWhile isWordChar
         let t4 := if t3.head? == some squote || t3.head? == some '"' then t3.tail else t3
         (t4.dropWhile isPySpace).head? == some '?')
      | none => false) s

/-- Skip pattern `\?\s*:` (ternary operator). -/
def skip_ternary_colon (s : Line) : Bool :=
  scanIC ("?".data) (fun t => (t.dropWhile isPySpace).head? == some ':') s

/-- Skip pattern `^\s*\w+\s+\w+\??$` (schema fields `fieldName Type?`). -/
def skip_schema_field (s : Line) : Bool :=
  let t := s.dropWhile isPySpace
  match t.head? with
  | some c1 =>
    isWordChar c1 &&
    (let t2 := t.dropWhile isWordChar
     !(t2.takeWhile isPySpace).isEmpty &&
     (let t3 := t2.dropWhile isPySpace
      match t3.head? with
      | some c2 =>
        isWordChar c2 &&
        (let t4 := t3.dropWhile isWordChar
         (t4 == [] || t4 == ['?']))
      | none => false))
  | none => false

/-- Skip patterns `const\s+\w+` / `let\s+\w+` / `var\s+\w+`. -/
def skip_decl (kw : Line) (s : Line) : Bool :=
  scanIC kw
    (spacesThen (fun t =>
      match t.head? with
      | some c => isWordChar c
      | none => false)) s

/-- Skip pattern `\x7b.*\x7d` (objects/blocks with braces). -/
def skip_braces (s : Line) : Bool := dotStarChar obr cbr s

/-- Skip pattern `\[.*\]` (arrays with brackets). -/
def skip_brackets (s : Line) : Bool := dotStarChar '[' ']' s

/-- The `skip_patterns` list of `is_question` (hansel.py lines 322-378),
matched with `re.search(..., re.IGNORECASE)`; `true` iff at least one
pattern matches the (already stripped) line. -/
def skip_patterns_match (s : Line) : Bool :=
  skip_comment s
  || skip_kw ("import ".data) s
  || skip_kw ("from ".data) s
  || skip_kw ("def ".data) s
  || skip_kw ("class ".data) s
  || headIs '+' s
  || headIs '-' s
  || headIs '?' s
  || containsIC ("for shortcuts".data) s
  || containsIC ("to interrupt".data) s
  || containsIC ("to edit".data) s
  || containsIC ("ctrl-".data) s || containsIC ("ctrl+".data) s
  || skip_esc_to s
  || headIs '>' s
  || containsIC ("spelunking".data) s
  || containsIC ("thinking".data) s
  || containsIC ("reading".data) s
  || containsIC ("writing".data) s
  || containsIC ("searching".data) s
  || skip_numbered s
  || skip_checkbox s
  || containsIC ("enter to select".data) s
  || dotStarIC ("tab".data) ("to navigate".data) s
  || containsIC ("arrow keys".data) s
  || containsIC ("to cancel".data) s
  || headIs '←' s || headIs '→' s || headIs '↑' s || headIs '↓' s
  || skip_next_button s
  || containsIC ("submit".data) s
  || containsIC ("package".data) s
  || containsIC ("features".data) s
  || containsIC ("rendering".data) s
  || containsIC ("styling".data) s
  || containsIC ("initial version".data) s
  || containsIC ("core features".data) s
  || containsIC ("want in the".data) s
  || containsIC ("want to use".data) s
  || dotStarIC ("framework".data) ("setup".data) s
  || containsIC ("do you want to use for".data) s
  || dotStarIC ("which".data) ("would you".data) s
  || dotStarIC ("select".data) ("from".data) s
  || dotStarIC ("choose".data) ("from".data) s
  || skip_optional_type s
  || skip_ternary_eq s
  || skip_ternary_colon s
  || containsStr ("?.".data) s
  || containsStr ("?[".data) s
  || skip_schema_field s
  || skip_decl ("const".data) s
  || skip_decl ("let".data) s
  || skip_decl ("var".data) s
  || containsStr ("=>".data) s
  || skip_braces s
  || skip_brackets s

/-- Inclusion pattern `\?\s*$`: ends with `?` up to trailing whitespace. -/
def q_endswith_qm (s : Line) : Bool :=
  (s.reverse.dropWhile isPySpace).head? == some '?'

/-- The fallback question patterns of `load_question_patterns` (the repo
ships no `lang/*.txt` files, so these are the effective ones). -/
def question_patterns_default : List (Line → Bool) :=
  [ q_endswith_qm,
    fun s => startsWithIC ("would you".data) s,
    fun s => startsWithIC ("do you".data) s,
    fun s => startsWithIC ("should i".data) s,
    fun s => containsIC ("want me to".data) s,
    fun s => containsIC ("like me to".data) s,
    fun s => containsIC ("proceed".data) s ]

/-- `is_question` (hansel.py lines 310-391).  The question patterns come
from `load_question_patterns`, so they are a parameter; each pattern is
modelled as the matching function of the corresponding regex. -/
def is_question (qpatterns : List (Line → Bool)) (line : Line) : Bool :=
  if (py_strip line).isEmpty then false
  else if (py_strip line).length < 15 then false
  else if skip_patterns_match (py_strip line) then false
  else qpatterns.any (fun p => p (py_strip line))

/-- The normalisation `clean_line.strip().lower()[:50]` used for the
echo guard and for `last_response_lines` entries. -/
def normalize50 (l : Line) : Line := (lowerLine (py_strip l)).take 50

/-- Python `'\n'.join`. -/
def joinNl : List Line → Line
  | [] => []
  | [x] => x
  | x :: y :: xs => x ++ '\n' :: joinNl (y :: xs)

/-- Python `l[-n:]`: the most recent `n` elements. -/
def lastN (n : Nat) (l : List Line) : List Line := l.drop (l.length - n)

/-- `'\n'.join(buffer_lines[-15:]).lower()` (hansel.py line 575). -/
def recent_context (buffer : List Line) : Line := lowerLine (joinNl (lastN 15 buffer))

/-- `in_menu` (hansel.py lines 576-579). -/
def in_menu (ctx : Line) : Bool :=
  containsStr ("enter to select".data) ctx || containsStr ("tab/arrow".data) ctx ||
  containsStr ("arrow keys".data) ctx || containsStr ("esc to cancel".data) ctx

/-- `has_menu_options` (hansel.py lines 585-588). -/
def has_menu_options (ctx : Line) : Bool :=
  containsStr ("1. yes".data) ctx || containsStr ("❯ 1.".data) ctx ||
  containsStr ("> 1.".data) ctx || containsStr ("1.".data) ctx

/-- `has_confirm_question` (hansel.py lines 591-593). -/
def has_confirm_question (ctx : Line) : Bool :=
  containsStr ("do you want to proceed".data) ctx ||
  containsStr ("do you want to make".data) ctx ||
  containsStr ("do you want to".data) ctx

/-- `menu_trigger` (hansel.py lines 596-606); `buffer` is the rolling
buffer after the current line has been appended. -/
def menu_trigger (buffer : List Line) (cleanLine : Line) : Bool :=
  (in_menu (recent_context buffer) &&
    (containsStr ("enter to select".data) (lowerLine cleanLine) ||
     containsStr ("esc to cancel".data) (lowerLine cleanLine)))
  || (has_menu_options (recent_context buffer) &&
      has_confirm_question (recent_context buffer) &&
      (containsStr ("esc to".data) (lowerLine cleanLine) ||
       containsStr ("type here to tell".data) (lowerLine cleanLine) ||
       containsStr ("3.".data) (lowerLine cleanLine) ||
       containsStr ("4.".data) (lowerLine cleanLine)))

/-- The echo guard test (hansel.py lines 565-572): some entry of
`last_response_lines` and the normalised line are non-empty and one is
a prefix of the other. -/
def echo_hit (pending : List Line) (ln : Line) : Bool :=
  pending.any (fun r => !ln.isEmpty && !r.isEmpty && (r.isPrefixOf ln || ln.isPrefixOf r))

/-- The rolling-buffer append/trim step (hansel.py lines 549-554):
append, then if the length exceeds 200 keep only the last 100 lines. -/
def bufferStep (b : List Line) (l : Line) : List Line :=
  if 200 < (b ++ [l]).length then (b ++ [l]).drop ((b ++ [l]).length - 100) else b ++ [l]

/-- The mutable state of `autonomous_mode` touched by per-line processing. -/
structure EngineState where
  bufferLines : List Line
  listeningStarted : Bool
  lastResponseLines : List Line
  lastQuestionTime : Int
  responseCooldownUntil : Int
deriving DecidableEq

/-- Outcome of processing one complete line in `handle_output`. -/
inductive LineResult where
  | skippedBlank
  | skippedEcho
  | skippedResponseCooldown
  | skippedQuestionCooldown
  | noDetection
  | dispatch (isMenu : Bool)
deriving DecidableEq

/-- Whether a `LineResult` dispatched a consultation task. -/
def dispatched : LineResult → Bool
  | LineResult.dispatch _ => true
  | _ => false

/-- One iteration of the per-line loop of `handle_output`
(hansel.py lines 538-642) on an already ANSI-cleaned line, at wall
clock `now`.  Returns the updated state and what happened. -/
def handle_output_line (startTime startupDelay : Int) (S : EngineState)
    (line : Line) (now : Int) : EngineState × LineResult :=
  if (py_strip line).isEmpty then (S, LineResult.skippedBlank)
  else
    let buf := bufferStep S.bufferLines line
    let listening := S.listeningStarted || decide (startupDelay ≤ now - startTime)
    let S1 : EngineState := { S with bufferLines := buf, listeningStarted := listening }
    if echo_hit S.lastResponseLines (normalize50 line) then (S1, LineResult.skippedEcho)
    else
      let mt := menu_trigger buf line
      if decide (now < S.responseCooldownUntil) && !mt then
        (S1, LineResult.skippedResponseCooldown)
      else if decide (now - S.lastQuestionTime < (if mt then 3 else 10)) then
        (S1, LineResult.skippedQuestionCooldown)
      else
        if listening && mt then
          ({ S1 with lastQuestionTime := now }, LineResult.dispatch true)
        else if listening &&
            !(has_menu_options (recent_context buf) ||
              has_confirm_question (recent_context buf) ||
              in_menu (recent_context buf)) &&
            is_question question_patterns_default line then
          ({ S1 with lastQuestionTime := now }, LineResult.dispatch false)
        else (S1, LineResult.noDetection)

/-- Observable actions of a consultation task (`respond_to_question`),
in program order: replacing `last_response_lines`, setting
`response_cooldown_until = time.time() + secs`, and `os.write` calls. -/
inductive Event where
  | setPending (pending : List Line)
  | armCooldown (secs : Int)
  | write (data : Line)
deriving DecidableEq

/-- Python `response.split('\n')`. -/
def splitOnNl : Line → List Line
  | [] => [[]]
  | c :: rest =>
    match splitOnNl rest with
    | [] => [[]]
    | s :: ss => if c = '\n' then [] :: s :: ss else (c :: s) :: ss

/-- The contents stored into `last_response_lines` by the free-form path
(hansel.py lines 785-791): each normalised non-empty line of the
response, plus the normalised whole response (set modelled as a list). -/
def pendingOf (response : Line) : List Line :=
  (((splitOnNl response).map normalize50).filter (fun x => !x.isEmpty)) ++
    [normalize50 response]

/-- The injector writes of the free-form path (hansel.py lines 804-814):
each character, then carriage return, then newline. -/
def freeform_writes (response : Line) : List Event :=
  response.map (fun c => Event.write [c]) ++ [Event.write ['\r'], Event.write ['\n']]

/-- The event trace of the free-form path of `respond_to_question`
(hansel.py lines 783-815), given the advisor answer. -/
def respond_to_question_trace (response : Line) : List Event :=
  Event.setPending (pendingOf response) :: Event.armCooldown 10 :: freeform_writes response

/-- The injector writes of the menu path (hansel.py lines 766-772):
the digits (when any), then carriage return. -/
def menu_writes (choiceClean : Line) : List Event :=
  (if choiceClean.isEmpty then [] else [Event.write choiceClean]) ++ [Event.write ['\r']]

/-- The event trace of the menu path of `respond_to_question`
(hansel.py lines 719-774), given the cleaned choice. -/
def respond_to_question_menu_trace (choiceClean : Line) : List Event :=
  Event.armCooldown 15 :: menu_writes choiceClean

/-- Whether an event is an injector write. -/
def isWrite : Event → Bool
  | Event.write _ => true
  | _ => false

/-- `true` iff no injector write occurs after a cooldown re-arm — the
ordering asserted by the spec for consultation tasks. -/
def noWriteAfterArm : List Event → Bool
  | [] => true
  | Event.armCooldown _ :: rest => rest.all (fun e => !isWrite e) && noWriteAfterArm rest
  | Event.setPending _ :: rest => noWriteAfterArm rest
  | Event.write _ :: rest => noWriteAfterArm rest

/-- The value of `last_response_lines` after running a trace, starting
from `p` (a `setPending` replaces it wholesale). -/
def applyPendingTrace (p : List Line) : List Event → List Line
  | [] => p
  | Event.setPending q :: rest => applyPendingTrace q rest
  | Event.armCooldown _ :: rest => applyPendingTrace p rest
  | Event.write _ :: rest => applyPendingTrace p rest

/-- Concatenation of everything a trace writes into the PTY. -/
def injectedData : List Event → Line
  | [] => []
  | Event.setPending _ :: rest => injectedData rest
  | Event.armCooldown _ :: rest => injectedData rest
  | Event.write d :: rest => d ++ injectedData rest

/-- Outcome of the HTTP call plus JSON field extraction inside
`call_chatgpt` / the menu request.  The extraction
`data.get("choices", [{}])[0].get("message", {}).get("content", ...)`
can itself raise: an empty `"choices"` list raises `IndexError`, a
non-dict entry (or a non-dict body) raises `AttributeError`; neither is
covered by `except (KeyError, json.JSONDecodeError)`, so such
structurally malformed payloads are a distinct outcome
(`extractionError`) from the caught parse failures (`parseFailure`). -/
inductive ApiResult where
  | ok (content : Line)
  | missingContent
  | requestException (msg : Line)
  | parseFailure (msg : Line)
  | extractionError (msg : Line)
deriving DecidableEq

/-- `call_chatgpt` (hansel.py lines 210-257): the returned answer text,
as a function of whether `requests` is importable, the configured API
key, and the outcome of the request.  `none` models the uncaught
exception of an `extractionError`: the function raises instead of
returning, and the consultation thread running it dies. -/
def call_chatgpt (hasRequests : Bool) (apiKey : Line) (r : ApiResult) : Option Line :=
  if !hasRequests then
    some ("Error: requests library not installed. Run: pip install requests".data)
  else if apiKey.isEmpty then some ("Error: OPENAI_API_KEY not set".data)
  else
    match r with
    | ApiResult.ok c => some c
    | ApiResult.missingContent => some ("Error: No response".data)
    | ApiResult.requestException e => some (("Error: API request failed - ".data) ++ e)
    | ApiResult.parseFailure e => some (("Error: Failed to parse response - ".data) ++ e)
    | ApiResult.extractionError _ => none

/-- The free-form path of `respond_to_question` including the advisor
call (hansel.py line 781 onward): on an uncaught extraction error the
thread dies at line 781, before the pending-set update, the cooldown
re-arm and the injector writes — the observable trace is empty. -/
def respond_to_question_freeform (hasRequests : Bool) (apiKey : Line) (r : ApiResult) :
    List Event :=
  match call_chatgpt hasRequests apiKey r with
  | none => []
  | some resp => respond_to_question_trace resp

/-- The menu path's choice computation (hansel.py lines 728-757):
default `"1"` without `requests`/key, and on ANY exception (its
`except Exception` also catches the extraction errors), then
`''.join(c for c in choice if c.isdigit())`. -/
def menu_choice_clean (hasRequests : Bool) (apiKey : Line) (r : ApiResult) : Line :=
  (if !hasRequests || apiKey.isEmpty then ("1".data)
   else
     match r with
     | ApiResult.ok c => py_strip c
     | ApiResult.missingContent => py_strip ("1".data)
     | ApiResult.requestException _ => ("1".data)
     | ApiResult.parseFailure _ => ("1".data)
     | ApiResult.extractionError _ => ("1".data)).filter Char.isDigit

/-- An advisor-call failure: no transport library, missing credential,
a transport exception, or a malformed payload (caught or not). -/
def advisor_failed (hasRequests : Bool) (apiKey : Line) (r : ApiResult) : Bool :=
  !hasRequests || apiKey.isEmpty ||
  (match r with
   | ApiResult.requestException _ => true
   | ApiResult.parseFailure _ => true
   | ApiResult.extractionError _ => true
   | _ => false)

/-- An advisor-call failure that `call_chatgpt` actually handles: the
pre-request checks plus the two `except` clauses
(`RequestException`, `KeyError`/`JSONDecodeError`). -/
def advisor_failed_caught (hasRequests : Bool) (apiKey : Line) (r : ApiResult) : Bool :=
  !hasRequests || apiKey.isEmpty ||
  (match r with
   | ApiResult.requestException _ => true
   | ApiResult.parseFailure _ => true
   | _ => false)

/-- State used to exhibit the menu bypass of the post-response mute
period: cooldown armed until time 100, no pending response lines. -/
def c2_state : EngineState :=
  { bufferLines := [], listeningStarted := true, lastResponseLines := [],
    lastQuestionTime := 0, responseCooldownUntil := 100 }

/-- State whose `lastResponseLines` contains the empty string — reachable
when the advisor answer is whitespace-only, since the free-form path also
stores `response.strip().lower()[:50]` without a non-emptiness check. -/
def c8_state : EngineState :=
  { bufferLines := [], listeningStarted := true, lastResponseLines := [[]],
    lastQuestionTime := 0, responseCooldownUntil := 0 }

/-- State whose `lastResponseLines` holds the normalised first line of a
previously injected answer. -/
def c8_echo_state : EngineState :=
  { bufferLines := [], listeningStarted := true,
    lastResponseLines := [("postgresql.".data)],
    lastQuestionTime := 0, responseCooldownUntil := 0 }

-- ------------------------------------------------------------------
-- Helper lemmas
-- ------------------------------------------------------------------

theorem isPrefixOf_append_of_isPrefixOf (a b t : Line) (h : a.isPrefixOf b = true) :
    a.isPrefixOf (b ++ t) = true := by
  rw [List.isPrefixOf_iff_prefix] at h ⊢
  exact h.trans (List.prefix_append b t)

theorem injectedData_freeform_writes (resp : Line) :
    injectedData (freeform_writes resp) = resp ++ ('\r' :: '\n' :: []) := by
  induction resp with
  | nil => rfl
  | cons c cs ih =>
    have h : freeform_writes (c :: cs) = Event.write [c] :: freeform_writes cs := rfl
    rw [h, injectedData, ih]
    rfl

theorem injectedData_freeform (resp : Line) :
    injectedData (respond_to_question_trace resp) = resp ++ ('\r' :: '\n' :: []) := by
  rw [respond_to_question_trace, injectedData, injectedData]
  exact injectedData_freeform_writes resp

theorem applyPendingTrace_freeform_writes (resp : Line) (p : List Line) :
    applyPendingTrace p (freeform_writes resp) = p := by
  induction resp with
  | nil => rfl
  | cons c cs ih =>
    have h : freeform_writes (c :: cs) = Event.write [c] :: freeform_writes cs := rfl
    rw [h, applyPendingTrace, ih]

theorem all_isWrite_freeform (resp : Line) :
    (freeform_writes resp).all isWrite = true := by
  induction resp with
  | nil => rfl
  | cons c cs ih =>
    have h : freeform_writes (c :: cs) = Event.write [c] :: freeform_writes cs := rfl
    rw [h, List.all_cons, ih]
    rfl

theorem normalize50_not_empty (l : Line) (h : (py_strip l).isEmpty = false) :
    (normalize50 l).isEmpty = false := by
  unfold normalize50 lowerLine
  cases hs : py_strip l with
  | nil => rw [hs] at h; simp at h
  | cons c cs => rfl

theorem dropWhile_append_nonmatch (p : Char → Bool) (u rest : Line) (c : Char)
    (hc : p c = false) :
    ∃ u2, (u ++ c :: rest).dropWhile p = u2 ++ c :: rest := by
  induction u with
  | nil => exact ⟨[], by simp [List.dropWhile_cons, hc]⟩
  | cons d ds ih =>
    by_cases hd : p d
    · obtain ⟨u2, hu2⟩ := ih
      refine ⟨u2, ?_⟩
      simpa [List.dropWhile_cons, hd] using hu2
    · exact ⟨d :: ds, by simp [List.dropWhile_cons, hd]⟩

theorem py_strip_decomp (u v w : Line) (c1 c2 : Char)
    (h1 : isPySpace c1 = false) (h2 : isPySpace c2 = false) :
    ∃ u2 w2, py_strip (u ++ c1 :: (v ++ c2 :: w)) = u2 ++ c1 :: (v ++ c2 :: w2) := by
  unfold py_strip
  obtain ⟨u2, hu⟩ := dropWhile_append_nonmatch isPySpace u (v ++ c2 :: w) c1 h1
  rw [hu]
  have hrev : (u2 ++ c1 :: (v ++ c2 :: w)).reverse =
      w.reverse ++ c2 :: (v.reverse ++ c1 :: u2.reverse) := by
    simp [List.reverse_append]
  rw [hrev]
  obtain ⟨w2, hw⟩ :=
    dropWhile_append_nonmatch isPySpace w.reverse (v.reverse ++ c1 :: u2.reverse) c2 h2
  rw [hw]
  refine ⟨u2, w2.reverse, ?_⟩
  simp [List.reverse_append]

theorem afterGapChar_of_decomp (v w : Line) (b : Char) :
    (∀ c ∈ v, c ≠ '\n') → afterGapChar b (v ++ b :: w) = true := by
  induction v with
  | nil => intro _; simp [afterGapChar]
  | cons c cs ih =>
    intro hv
    have hrec := ih (fun x hx => hv x (by simp [hx]))
    have hc : c ≠ '\n' := hv c (by simp)
    simp [afterGapChar, hrec, hc]

theorem dotStarChar_of_decomp (u v w : Line) (a b : Char) :
    (∀ c ∈ v, c ≠ '\n') → dotStarChar a b (u ++ a :: (v ++ b :: w)) = true := by
  induction u with
  | nil =>
    intro hv
    have h1 : afterGapChar b (v ++ b :: w) = true := afterGapChar_of_decomp v w b hv
    simp [dotStarChar, h1]
  | cons d ds ih =>
    intro hv
    have h1 := ih hv
    simp [dotStarChar, h1]

-- ------------------------------------------------------------------
-- Claim theorems
-- ------------------------------------------------------------------

/-- C1: the spec scenario expects the line
`"Should I use PostgreSQL or MongoDB?"` to classify as a question and
dispatch a consultation, and the repository's own test
(`test_question_mark_ending`) asserts
`is_question("Should I use PostgreSQL?")` is true — but `is_question`
returns `false` on both: the code-construct skip pattern `\w+\?\s*$`
(meant for optional-type markers such as `String?`) matches the trailing
`word?` of any ordinary question, even though the inclusion patterns
would match.  The code contradicts its own tests, so this is a bug in
the code rather than in the spec. -/
theorem c1_postgres_question_not_detected :
    is_question question_patterns_default ("Should I use PostgreSQL or MongoDB?".data) = false ∧
    skip_optional_type (py_strip ("Should I use PostgreSQL or MongoDB?".data)) = true ∧
    (question_patterns_default.any
      (fun p => p (py_strip ("Should I use PostgreSQL or MongoDB?".data)))) = true ∧
    is_question question_patterns_default ("Should I use PostgreSQL?".data) = false := by
  refine ⟨by decide, by decide, by decide, by decide⟩

/-- C2 counterexample: the claim says menu detections never fully bypass
the post-response mute period, but `handle_output` checks
`time.time() < response_cooldown_until and not menu_trigger`, so a
menu-trigger line dispatches a consultation even while the mute period
is active (here: cooldown armed until 100, line processed at 50). -/
theorem c2_menu_bypass_counterexample :
    (50 : Int) < c2_state.responseCooldownUntil ∧
    (handle_output_line 0 5 c2_state ("Enter to select, Esc to cancel".data) 50).2 =
      LineResult.dispatch true := by
  refine ⟨by decide, by decide⟩

/-- C2 (amended): while the post-response mute period is active, every
line that does not satisfy the menu-trigger condition is suppressed and
dispatches no consultation task; menu-trigger lines bypass the mute
period entirely. -/
theorem c2_mute_suppresses_nonmenu :
    ∀ (startTime startupDelay : Int) (S : EngineState) (line : Line) (now : Int),
    now < S.responseCooldownUntil →
    menu_trigger (bufferStep S.bufferLines line) line = false →
    dispatched (handle_output_line startTime startupDelay S line now).2 = false := by
  intro st sd S l now hc hmt
  by_cases h1 : (py_strip l).isEmpty
  · simp [handle_output_line, h1, dispatched]
  · by_cases h2 : echo_hit S.lastResponseLines (normalize50 l)
    · simp [handle_output_line, h1, h2, dispatched]
    · have h3 : (decide (now < S.responseCooldownUntil) &&
          !menu_trigger (bufferStep S.bufferLines l) l) = true := by
        simp [hmt, hc]
      simp [handle_output_line, h1, h2, h3, dispatched]

theorem c2_mute_suppresses_nonmenu_witness :
    ((50 : Int) < c2_state.responseCooldownUntil ∧
     menu_trigger (bufferStep c2_state.bufferLines ("hello there everyone".data))
       ("hello there everyone".data) = false) ∧
    dispatched (handle_output_line 0 5 c2_state ("hello there everyone".data) 50).2 = false :=
  ⟨⟨by decide, by decide⟩,
   c2_mute_suppresses_nonmenu 0 5 c2_state ("hello there everyone".data) 50
     (by decide) (by decide)⟩

/-- C3 counterexample: the claim says the injector's PTY writes happen
before the cooldown window is re-armed, but in `respond_to_question`
(free-form path) `response_cooldown_until` is set at line 801, before
the `os.write` calls at lines 804-814 — so a cooldown re-arm precedes
the writes in the task's trace. -/
theorem c3_rearm_before_writes_counterexample :
    noWriteAfterArm (respond_to_question_trace ("Yes.".data)) = false := by
  decide

/-- C3 (amended): within every consultation task the order is:
`PendingResponseSet` update (free-form path only), then `CooldownWindow`
re-arm, then the injector's writes; the menu path re-arms the cooldown
first and then writes, without touching `PendingResponseSet`. -/
theorem c3_task_event_order :
    ∀ (response choiceClean : Line),
    (respond_to_question_trace response).head? =
      some (Event.setPending (pendingOf response)) ∧
    (respond_to_question_trace response).tail.head? = some (Event.armCooldown 10) ∧
    ((respond_to_question_trace response).drop 2).all isWrite = true ∧
    (respond_to_question_menu_trace choiceClean).head? = some (Event.armCooldown 15) ∧
    ((respond_to_question_menu_trace choiceClean).drop 1).all isWrite = true := by
  intro r c
  refine ⟨rfl, rfl, ?_, rfl, ?_⟩
  · exact all_isWrite_freeform r
  · cases hc : c.isEmpty <;>
      simp [respond_to_question_menu_trace, menu_writes, hc, isWrite]

/-- C4 counterexample: the claim says every consultation task — menu
selections included — replaces `PendingResponseSet` with the normalized
lines of the produced answer; but the menu path of
`respond_to_question` never touches `last_response_lines`, so after a
menu task that injected the token `"1"` the set still holds the old
contents, not the normalized answer. -/
theorem c4_menu_keeps_pending_counterexample :
    applyPendingTrace [("previous answer".data)]
      (respond_to_question_menu_trace ("1".data)) = [("previous answer".data)] ∧
    ¬([("previous answer".data)] = pendingOf ("1".data)) := by
  refine ⟨by decide, by decide⟩

/-- C4 (amended): the free-form path replaces `PendingResponseSet`
wholesale (the result does not depend on the previous contents) with
the normalized (stripped, case-folded, 50-character-truncated) lines of
the produced answer; the menu path leaves it unchanged. -/
theorem c4_pending_replacement :
    ∀ (old : List Line) (response : Line) (old2 : List Line) (choiceClean : Line),
    applyPendingTrace old (respond_to_question_trace response) = pendingOf response ∧
    applyPendingTrace old2 (respond_to_question_menu_trace choiceClean) = old2 := by
  intro old r old2 c
  constructor
  · rw [respond_to_question_trace, applyPendingTrace, applyPendingTrace]
    exact applyPendingTrace_freeform_writes r (pendingOf r)
  · rw [respond_to_question_menu_trace, applyPendingTrace]
    cases hc : c.isEmpty <;> simp [menu_writes, hc, applyPendingTrace]

/-- C5 counterexample: the claim says every advisor-call failure,
malformed payloads included, yields a textual `"Error: ..."` answer
that becomes the injected response on the free-form path; but a payload
with an empty `"choices"` list raises `IndexError` inside the JSON
extraction, which `except (KeyError, json.JSONDecodeError)` does not
catch — `call_chatgpt` raises instead of returning, the consultation
thread dies, and nothing at all is injected. -/
theorem c5_extraction_crash_counterexample :
    advisor_failed true ("sk-key".data)
      (ApiResult.extractionError ("list index out of range".data)) = true ∧
    call_chatgpt true ("sk-key".data)
      (ApiResult.extractionError ("list index out of range".data)) = none ∧
    respond_to_question_freeform true ("sk-key".data)
      (ApiResult.extractionError ("list index out of range".data)) = [] ∧
    injectedData (respond_to_question_freeform true ("sk-key".data)
      (ApiResult.extractionError ("list index out of range".data))) = [] := by
  refine ⟨by decide, rfl, rfl, rfl⟩

/-- C5 (amended): for every advisor-call failure, the menu path yields
the safe default token `"1"` (its `except Exception` catches even the
extraction errors); and for every failure that `call_chatgpt` handles —
no transport library, missing credential, a transport exception, or a
caught (`KeyError`/`JSONDecodeError`) parse failure — the free-form
path returns an answer starting with `"Error: "` which becomes,
verbatim, the injected response followed by the line terminator.  A
structurally malformed payload (e.g. an empty `"choices"` list) escapes
the free-form path's `except` clauses: the consultation thread dies and
nothing is injected (the relay session itself continues). -/
theorem c5_caught_failure_recovery :
    ∀ (hasRequests : Bool) (apiKey : Line) (r : ApiResult),
    (advisor_failed hasRequests apiKey r = true →
      menu_choice_clean hasRequests apiKey r = ("1".data)) ∧
    (advisor_failed_caught hasRequests apiKey r = true →
      ∃ resp, call_chatgpt hasRequests apiKey r = some resp ∧
        ("Error: ".data).isPrefixOf resp = true ∧
        injectedData (respond_to_question_freeform hasRequests apiKey r) =
          resp ++ ('\r' :: '\n' :: [])) := by
  intro hr key r
  constructor
  · intro hfail
    cases hr with
    | false => rfl
    | true =>
      cases key with
      | nil => rfl
      | cons a as =>
        cases r with
        | ok c => simp [advisor_failed] at hfail
        | missingContent => simp [advisor_failed] at hfail
        | requestException e => rfl
        | parseFailure e => rfl
        | extractionError e => rfl
  · intro hfail
    cases hr with
    | false =>
      refine ⟨("Error: requests library not installed. Run: pip install requests".data),
        rfl, by decide, ?_⟩
      have h : respond_to_question_freeform false key r =
          respond_to_question_trace
            ("Error: requests library not installed. Run: pip install requests".data) := rfl
      rw [h]
      exact injectedData_freeform _
    | true =>
      cases key with
      | nil =>
        refine ⟨("Error: OPENAI_API_KEY not set".data), rfl, by decide, ?_⟩
        have h : respond_to_question_freeform true [] r =
            respond_to_question_trace ("Error: OPENAI_API_KEY not set".data) := rfl
        rw [h]
        exact injectedData_freeform _
      | cons a as =>
        cases r with
        | ok c => simp [advisor_failed_caught] at hfail
        | missingContent => simp [advisor_failed_caught] at hfail
        | extractionError e => simp [advisor_failed_caught] at hfail
        | requestException e =>
          refine ⟨("Error: API request failed - ".data) ++ e, rfl,
            isPrefixOf_append_of_isPrefixOf _ _ _ (by decide), ?_⟩
          have h : respond_to_question_freeform true (a :: as) (ApiResult.requestException e) =
              respond_to_question_trace (("Error: API request failed - ".data) ++ e) := rfl
          rw [h]
          exact injectedData_freeform _
        | parseFailure e =>
          refine ⟨("Error: Failed to parse response - ".data) ++ e, rfl,
            isPrefixOf_append_of_isPrefixOf _ _ _ (by decide), ?_⟩
          have h : respond_to_question_freeform true (a :: as) (ApiResult.parseFailure e) =
              respond_to_question_trace (("Error: Failed to parse response - ".data) ++ e) := rfl
          rw [h]
          exact injectedData_freeform _

theorem c5_caught_failure_recovery_witness :
    (advisor_failed true ("sk-key".data) (ApiResult.requestException ("timeout".data)) = true ∧
     advisor_failed_caught true ("sk-key".data)
       (ApiResult.requestException ("timeout".data)) = true) ∧
    (menu_choice_clean true ("sk-key".data) (ApiResult.requestException ("timeout".data)) =
       ("1".data) ∧
     ∃ resp, call_chatgpt true ("sk-key".data)
         (ApiResult.requestException ("timeout".data)) = some resp ∧
       ("Error: ".data).isPrefixOf resp = true ∧
       injectedData (respond_to_question_freeform true ("sk-key".data)
           (ApiResult.requestException ("timeout".data))) =
         resp ++ ('\r' :: '\n' :: [])) :=
  ⟨⟨by decide, by decide⟩,
   ⟨(c5_caught_failure_recovery true ("sk-key".data)
       (ApiResult.requestException ("timeout".data))).1 (by decide),
    (c5_caught_failure_recovery true ("sk-key".data)
       (ApiResult.requestException ("timeout".data))).2 (by decide)⟩⟩

/-- C6: exclusion takes precedence over inclusion — whenever at least
one skip pattern matches the stripped line, `is_question` returns
`false`, whatever the (configurable) inclusion patterns would say. -/
theorem c6_exclusion_precedence :
    ∀ (qpatterns : List (Line → Bool)) (line : Line),
    skip_patterns_match (py_strip line) = true →
    is_question qpatterns line = false := by
  intro qp l h
  unfold is_question
  rw [h]
  simp

theorem c6_exclusion_precedence_witness :
    skip_patterns_match (py_strip ("Do you want to proceed? [y/n]".data)) = true ∧
    is_question question_patterns_default ("Do you want to proceed? [y/n]".data) = false :=
  ⟨by decide,
   c6_exclusion_precedence question_patterns_default
     ("Do you want to proceed? [y/n]".data) (by decide)⟩

/-- C7: every input whose stripped length is below the 15-character
minimum (including empty and whitespace-only strings) classifies as
not-a-question, regardless of its content and of the inclusion
patterns in use. -/
theorem c7_short_line_ignored :
    ∀ (qpatterns : List (Line → Bool)) (line : Line),
    (py_strip line).length < 15 →
    is_question qpatterns line = false := by
  intro qp l h
  simp [is_question, h]

theorem c7_short_line_ignored_witness :
    (py_strip ("Proceed now?".data)).length < 15 ∧
    is_question question_patterns_default ("Proceed now?".data) = false :=
  ⟨by decide,
   c7_short_line_ignored question_patterns_default ("Proceed now?".data) (by decide)⟩

/-- C8 counterexample: the claim quantifies over every state of
`PendingResponseSet` and requires discarding whenever some stored entry
is a prefix of the normalized line; the empty string (storable, since
the free-form path adds `response.strip().lower()[:50]` unconditionally)
is a prefix of every line, yet the guard requires `resp_line` to be
truthy, so the line is not discarded — classification runs and here even
dispatches a consultation. -/
theorem c8_empty_entry_counterexample :
    (([] : Line) ∈ c8_state.lastResponseLines ∧
     ([] : Line) <+: normalize50 ("Would you prefer plan A or plan B ?".data)) ∧
    (handle_output_line 0 5 c8_state ("Would you prefer plan A or plan B ?".data) 50).2 =
      LineResult.dispatch false := by
  refine ⟨⟨by decide, List.nil_prefix ..⟩, by decide⟩

/-- C8 (amended): for every non-blank line and every state of
`PendingResponseSet`: if some non-empty stored entry is a prefix of the
line's normalized form, or the normalized form is a prefix of such an
entry, the line is discarded as a self-echo — classification does not
run and no consultation is dispatched. -/
theorem c8_echo_guard_discards :
    ∀ (startTime startupDelay : Int) (S : EngineState) (line : Line) (now : Int),
    (py_strip line).isEmpty = false →
    (∃ r, r ∈ S.lastResponseLines ∧ r ≠ [] ∧
      (r <+: normalize50 line ∨ normalize50 line <+: r)) →
    (handle_output_line startTime startupDelay S line now).2 = LineResult.skippedEcho := by
  intro st sd S l now h1 hex
  obtain ⟨r, hmem, hne, hpre⟩ := hex
  have hln : (normalize50 l).isEmpty = false := normalize50_not_empty l h1
  have hecho : echo_hit S.lastResponseLines (normalize50 l) = true := by
    unfold echo_hit
    rw [List.any_eq_true]
    refine ⟨r, hmem, ?_⟩
    have hr : r.isEmpty = false := by
      cases r with
      | nil => exact absurd rfl hne
      | cons x xs => rfl
    rcases hpre with hp | hp <;>
      simp [hln, hr, List.isPrefixOf_iff_prefix, hp]
  simp [handle_output_line, h1, hecho]

theorem c8_echo_guard_discards_witness :
    ((py_strip ("PostgreSQL. Better for relational data".data)).isEmpty = false ∧
     (∃ r, r ∈ c8_echo_state.lastResponseLines ∧ r ≠ [] ∧
       (r <+: normalize50 ("PostgreSQL. Better for relational data".data) ∨
        normalize50 ("PostgreSQL. Better for relational data".data) <+: r))) ∧
    (handle_output_line 0 5 c8_echo_state
        ("PostgreSQL. Better for relational data".data) 50).2 = LineResult.skippedEcho :=
  ⟨⟨by decide, ⟨("postgresql.".data), by decide, by decide, Or.inl (by decide)⟩⟩,
   c8_echo_guard_discards 0 5 c8_echo_state
     ("PostgreSQL. Better for relational data".data) 50 (by decide)
     ⟨("postgresql.".data), by decide, by decide, Or.inl (by decide)⟩⟩

/-- C9: the rolling buffer step is append-only and monotonically
bounded: starting from a buffer within the 200-line bound, after
appending a processed line the buffer is still within the bound, it is
a suffix of the old buffer with the line appended (entries are never
reordered or mutated, only trimmed from the front), and whenever the
bound is exceeded it is trimmed to exactly the most recent 100 lines. -/
theorem c9_buffer_bounded :
    ∀ (b : List Line) (l : Line), b.length ≤ 200 →
    (bufferStep b l).length ≤ 200 ∧
    (bufferStep b l) <:+ (b ++ [l]) ∧
    (200 < (b ++ [l]).length →
      bufferStep b l = (b ++ [l]).drop ((b ++ [l]).length - 100) ∧
      (bufferStep b l).length = 100) := by
  intro b l hb
  unfold bufferStep
  by_cases h : 200 < (b ++ [l]).length
  · rw [if_pos h]
    have hlen : (b ++ [l]).length = b.length + 1 := by simp
    refine ⟨?_, List.drop_suffix _ _, fun _ => ⟨rfl, ?_⟩⟩
    · rw [List.length_drop]
      omega
    · rw [List.length_drop]
      omega
  · rw [if_neg h]
    have hlen : (b ++ [l]).length = b.length + 1 := by simp
    exact ⟨by omega, List.suffix_refl _, fun hc => absurd hc h⟩

theorem c9_buffer_bounded_witness :
    (([] : List Line).length ≤ 200) ∧
    ((bufferStep [] ("x".data)).length ≤ 200 ∧
     (bufferStep [] ("x".data)) <:+ ([] ++ [("x".data)]) ∧
     (200 < (([] : List Line) ++ [("x".data)]).length →
       bufferStep [] ("x".data) =
         (([] : List Line) ++ [("x".data)]).drop
           ((([] : List Line) ++ [("x".data)]).length - 100) ∧
       (bufferStep [] ("x".data)).length = 100)) :=
  ⟨by decide, c9_buffer_bounded [] ("x".data) (by decide)⟩

/-- C10 (implicit): the code-construct exclusion patterns match braces
and brackets anywhere in the line, so every (newline-free) line
containing an opening brace later followed by a closing brace, or an
opening bracket later followed by a closing bracket, classifies as
not-a-question regardless of the inclusion patterns — even genuine
questions such as `"Do you want to proceed? [y/n]"`. -/
theorem c10_brace_bracket_ignored :
    ∀ (qpatterns : List (Line → Bool)) (l : Line),
    '\n' ∉ l →
    ((∃ u v w, l = u ++ obr :: (v ++ cbr :: w)) ∨
     (∃ u v w, l = u ++ '[' :: (v ++ ']' :: w))) →
    is_question qpatterns l = false := by
  intro qp l hnl hdec
  have hskip : skip_patterns_match (py_strip l) = true := by
    rcases hdec with ⟨u, v, w, hl⟩ | ⟨u, v, w, hl⟩
    · subst hl
      obtain ⟨u2, w2, hs⟩ := py_strip_decomp u v w obr cbr (by decide) (by decide)
      have hv : ∀ c ∈ v, c ≠ '\n' := by
        intro c hc hcn
        subst hcn
        exact hnl (by simp [hc])
      have hbr : skip_braces (py_strip (u ++ obr :: (v ++ cbr :: w))) = true := by
        rw [hs]
        exact dotStarChar_of_decomp u2 v w2 obr cbr hv
      simp [skip_patterns_match, hbr]
    · subst hl
      obtain ⟨u2, w2, hs⟩ := py_strip_decomp u v w '[' ']' (by decide) (by decide)
      have hv : ∀ c ∈ v, c ≠ '\n' := by
        intro c hc hcn
        subst hcn
        exact hnl (by simp [hc])
      have hbk : skip_brackets (py_strip (u ++ '[' :: (v ++ ']' :: w))) = true := by
        rw [hs]
        exact dotStarChar_of_decomp u2 v w2 '[' ']' hv
      simp [skip_patterns_match, hbk]
  unfold is_question
  rw [hskip]
  simp

theorem c10_brace_bracket_ignored_witness :
    ('\n' ∉ ("Do you want to proceed? [y/n]".data)) ∧
    is_question question_patterns_default ("Do you want to proceed? [y/n]".data) = false :=
  ⟨by decide,
   c10_brace_bracket_ignored question_patterns_default
     ("Do you want to proceed? [y/n]".data) (by decide)
     (Or.inr ⟨("Do you want to proceed? ".data), ("y/n".data), [], by decide⟩)⟩
